import Mathlib

/-!
Shallow embedding of the user-management plugin's authentication and RBAC
core: configuration, JWT token codec, auth service, RBAC service, seed data
and the HTTP route handlers, translated from the Python source
(`user_management/config.py`, `user_management/services/auth.py`,
`user_management/services/rbac.py`, `models/user.py`,
`migrations/seed_roles_and_permissions.py`,
`user_management/api/routes/auth.py`). Timestamps are POSIX seconds
modelled as `Int`.
-/

/-- Equality of fallible results is decidable, so concrete runs of the
embedded operations can be checked by `decide`. -/
instance {ε α : Type} [DecidableEq ε] [DecidableEq α] :
    DecidableEq (Except ε α) := fun a b =>
  match a, b with
  | .error e, .error f => decidable_of_iff (e = f) (by simp)
  | .error _, .ok _ => isFalse (by simp)
  | .ok _, .error _ => isFalse (by simp)
  | .ok a, .ok b => decidable_of_iff (a = b) (by simp)

/-- HTTP-level failure outcomes (`HTTPException` status codes raised by the
service and route layer in the source). -/
inductive HTTPError where
  | badRequest400
  | unauthorized401
  | forbidden403
  | notFound404
  | conflict409
deriving DecidableEq

/-- Application settings (`config.py`, class `Settings`). Only the fields
read by the authentication core are embedded. -/
structure Settings where
  JWT_SECRET_KEY : String
  JWT_ALGORITHM : String
  JWT_EXPIRATION_HOURS : Int
  JWT_REFRESH_EXPIRATION_DAYS : Int
  BCRYPT_COST : Int
deriving DecidableEq

/-- Construction of `Settings` (`config.py` lines 22-70): each field is read
from the environment with a shipped default, and no validator runs on any of
them, so construction succeeds for every secret string. `jwt_secret_key`
stands for the `JWT_SECRET_KEY` environment value. -/
def mkSettings (jwt_secret_key : String) : Settings :=
  { JWT_SECRET_KEY := jwt_secret_key
    JWT_ALGORITHM := "HS256"
    JWT_EXPIRATION_HOURS := 24
    JWT_REFRESH_EXPIRATION_DAYS := 7
    BCRYPT_COST := 12 }

/-- The configuration obtained when no environment variable is set: the
shipped default secret (`config.py` lines 32-35). -/
def defaultSettings : Settings :=
  mkSettings "your-secret-key-change-in-production-min-32-chars"

/-- JWT payload built by the token factories (`auth.py` lines 105-110 and
126-131). The source stores `sub` as `str(user_id)` and verification parses
it back with `int(payload.get("sub"))`; these compose to the identity on
integers, so `sub` is embedded as `Int` directly. `exp` and `iat` are POSIX
seconds (`timedelta(hours=h)` is `h * 3600` seconds, `timedelta(days=d)` is
`d * 86400` seconds). -/
structure Payload where
  sub : Int
  type : String
  exp : Int
  iat : Int
deriving DecidableEq

/-- A signed JWT as produced by `jwt.encode(payload, secret, algorithm)`:
the payload together with the secret it was signed with. The HMAC signature
is abstracted by the rule that a signature verifies exactly when the
verifying secret equals the signing secret. -/
structure Token where
  payload : Payload
  signedWith : String
deriving DecidableEq

/-- The PyJWT exceptions caught by the source's verification code. -/
inductive JwtError where
  | ExpiredSignatureError
  | InvalidTokenError
deriving DecidableEq

/-- `jwt.decode(token, secret, algorithms=[...])` (PyJWT): a signature made
with a different secret raises `InvalidTokenError`; an expired payload
(`exp <= now`, zero leeway) raises `ExpiredSignatureError`; otherwise the
payload is returned. -/
def jwtDecode (secret : String) (now : Int) (t : Token) : Except JwtError Payload :=
  if t.signedWith ≠ secret then .error .InvalidTokenError
  else if t.payload.exp ≤ now then .error .ExpiredSignatureError
  else .ok t.payload

/-- `Permission` model (`models/user.py` lines 155-174). -/
structure Permission where
  name : String
  description : String
  module : String
deriving DecidableEq

/-- `Role` model (`models/user.py` lines 130-152) with its many-to-many
permission set. -/
structure Role where
  name : String
  description : String
  level : Int
  is_system : Bool
  permissions : List Permission
deriving DecidableEq

/-- `User` model (`models/user.py` lines 57-127): the columns the
authentication and RBAC core reads, plus the many-to-many role set. -/
structure User where
  id : Int
  email : String
  username : String
  password_hash : String
  first_name : Option String
  last_name : Option String
  is_active : Bool
  is_email_verified : Bool
  last_login : Option Int
  deleted_at : Option Int
  roles : List Role
deriving DecidableEq

/-- `set.add` on the model of a Python set of strings as a duplicate-free
list in insertion order. -/
def pySetAdd (s : List String) (x : String) : List String :=
  if x ∈ s then s else s ++ [x]

/-- `User.get_permissions` (`models/user.py` lines 102-108): folds the name
of every permission of every assigned role into a set. -/
def User.get_permissions (u : User) : List String :=
  u.roles.foldl
    (fun acc role => role.permissions.foldl (fun acc2 p => pySetAdd acc2 p.name) acc) []

/-- `User.has_permission` (`models/user.py` lines 110-112). -/
def User.has_permission (u : User) (permission_name : String) : Bool :=
  u.get_permissions.contains permission_name

/-- `User.has_role` (`models/user.py` lines 114-116). -/
def User.has_role (u : User) (role_name : String) : Bool :=
  u.roles.any (fun role => role.name == role_name)

/-- `User.is_admin` (`models/user.py` lines 118-120). -/
def User.is_admin (u : User) : Bool :=
  u.has_role "admin" || u.has_role "super_admin"

/-- The relational store as seen by the service layer: the `users` and
`roles` tables and the autoincrement counter for `users.id`. -/
structure Db where
  users : List User
  roles : List Role
  next_id : Int
deriving DecidableEq

namespace AuthService

/-- `AuthService.hash_password` (`auth.py` lines 31-34): bcrypt via passlib.
The salted digest is abstracted to a deterministic injective digest
satisfying the hasher contract `verify_password p (hash_password p) = true`. -/
def hash_password (password : String) : String :=
  "bcrypt$" ++ password

/-- `AuthService.verify_password` (`auth.py` lines 36-39). -/
def verify_password (password : String) (hashed : String) : Bool :=
  hashed == hash_password password

/-- `AuthService.create_user` (`auth.py` lines 41-60): hashes the password
and inserts a row; the column defaults of `models/user.py` give
`is_active = true`, `is_email_verified = false`, `deleted_at = NULL`, no
roles, no `last_login`. Returns the refreshed row and the updated store. -/
def create_user (db : Db) (email username password : String)
    (first_name last_name : Option String) : User × Db :=
  let user : User :=
    { id := db.next_id, email := email, username := username
      password_hash := hash_password password
      first_name := first_name, last_name := last_name
      is_active := true, is_email_verified := false
      last_login := none, deleted_at := none, roles := [] }
  (user, { db with users := db.users ++ [user], next_id := db.next_id + 1 })

/-- `AuthService.authenticate_user` (`auth.py` lines 62-84): look the user
up by email (`.filter(User.email == email).first()` — no `deleted_at`
filter), check the password, check `is_active`; each of the three failure
branches returns `None`. On success the source sets `last_login` to the
current time, commits, and returns the (updated) user object. -/
def authenticate_user (db : Db) (now : Int) (email password : String) :
    Option User × Db :=
  match db.users.find? (fun u => u.email == email) with
  | none => (none, db)
  | some user =>
    if !verify_password password user.password_hash then (none, db)
    else if !user.is_active then (none, db)
    else
      let user' := { user with last_login := some now }
      (some user',
       { db with users := db.users.map (fun u => if u.id == user.id then user' else u) })

/-- `AuthService.change_password` (`auth.py` lines 86-97). -/
def change_password (db : Db) (user : User) (old_password new_password : String) :
    Bool × Db :=
  if !verify_password old_password user.password_hash then (false, db)
  else
    let user' := { user with password_hash := hash_password new_password }
    (true,
     { db with users := db.users.map (fun u => if u.id == user.id then user' else u) })

/-- `AuthService.create_access_token` (`auth.py` lines 99-118): payload
`{"sub": str(user_id), "type": "access", "exp": now + hours, "iat": now}`
signed with the configured secret; `expires_in_hours = none` models the
Python default argument `None`, which selects the configured TTL. -/
def create_access_token (s : Settings) (now : Int) (user_id : Int)
    (expires_in_hours : Option Int) : Token :=
  let hours := expires_in_hours.getD s.JWT_EXPIRATION_HOURS
  { payload := { sub := user_id, type := "access", exp := now + hours * 3600, iat := now }
    signedWith := s.JWT_SECRET_KEY }

/-- `AuthService.create_refresh_token` (`auth.py` lines 120-139). -/
def create_refresh_token (s : Settings) (now : Int) (user_id : Int)
    (expires_in_days : Option Int) : Token :=
  let days := expires_in_days.getD s.JWT_REFRESH_EXPIRATION_DAYS
  { payload := { sub := user_id, type := "refresh", exp := now + days * 86400, iat := now }
    signedWith := s.JWT_SECRET_KEY }

/-- The distinct failure branches of token verification (`auth.py` lines
141-185): the source logs a different message in each branch (expired /
invalid / wrong token type) and returns `None` from all of them. -/
inductive VerifyError where
  | invalidToken
  | expiredToken
  | wrongTokenType
deriving DecidableEq

/-- Branch-level embedding of `AuthService.verify_access_token` (`auth.py`
lines 141-162): `jwt.decode` (signature, then expiry), then the
`payload.get("type") != "access"` guard, then `int(payload.get("sub"))`. -/
def verifyAccessTokenE (s : Settings) (now : Int) (t : Token) :
    Except VerifyError Int :=
  match jwtDecode s.JWT_SECRET_KEY now t with
  | .error .ExpiredSignatureError => .error .expiredToken
  | .error .InvalidTokenError => .error .invalidToken
  | .ok payload =>
    if payload.type ≠ "access" then .error .wrongTokenType
    else .ok payload.sub

/-- `AuthService.verify_access_token` as the caller sees it: every failure
branch returns `None`. -/
def verify_access_token (s : Settings) (now : Int) (t : Token) : Option Int :=
  (verifyAccessTokenE s now t).toOption

/-- Branch-level embedding of `AuthService.verify_refresh_token` (`auth.py`
lines 164-185), symmetric to the access case with expected type
`"refresh"`. -/
def verifyRefreshTokenE (s : Settings) (now : Int) (t : Token) :
    Except VerifyError Int :=
  match jwtDecode s.JWT_SECRET_KEY now t with
  | .error .ExpiredSignatureError => .error .expiredToken
  | .error .InvalidTokenError => .error .invalidToken
  | .ok payload =>
    if payload.type ≠ "refresh" then .error .wrongTokenType
    else .ok payload.sub

/-- `AuthService.verify_refresh_token` as the caller sees it. -/
def verify_refresh_token (s : Settings) (now : Int) (t : Token) : Option Int :=
  (verifyRefreshTokenE s now t).toOption

/-- `AuthService.get_current_user` (`auth.py` lines 187-216): verify the
bearer token, then the guard `if not user_id` — Python truthiness, which
fires both when verification returned `None` and when the verified subject
id is the integer `0`; then load the row by id (no `deleted_at` filter in
the source), 404 when absent, 403 when `is_active` is false. -/
def get_current_user (s : Settings) (db : Db) (now : Int) (t : Token) :
    Except HTTPError User :=
  match verify_access_token s now t with
  | none => .error .unauthorized401
  | some user_id =>
    if user_id == 0 then .error .unauthorized401
    else
      match db.users.find? (fun u => u.id == user_id) with
      | none => .error .notFound404
      | some user =>
        if !user.is_active then .error .forbidden403
        else .ok user

end AuthService

namespace RBACService

/-- `RBACService.check_permission` (`rbac.py` lines 18-24): the guard
`if not user or not user.is_active: return False` — a missing user object
is `None`, modelled as `Option.none`. -/
def check_permission (user : Option User) (permission_name : String) : Bool :=
  match user with
  | none => false
  | some u => if !u.is_active then false else u.has_permission permission_name

/-- `RBACService.check_role` (`rbac.py` lines 26-32). -/
def check_role (user : Option User) (role_name : String) : Bool :=
  match user with
  | none => false
  | some u => if !u.is_active then false else u.has_role role_name

/-- `RBACService.is_admin` (`rbac.py` lines 34-40). -/
def is_admin (user : Option User) : Bool :=
  match user with
  | none => false
  | some u => if !u.is_active then false else u.is_admin

/-- Outcome of `RBACService.assign_role` / `remove_role`: the source
returns `False` from two distinct guarded branches (role lookup failed, and
the membership pre-check) and `True` after mutating `user.roles` and
committing; the branches are kept distinct here and the mutated user object
is carried on success. `toBool` recovers the Python return value. -/
inductive RoleOpResult where
  | ok (user : User)
  | roleNotFound
  | alreadyAssigned
  | notAssigned
deriving DecidableEq

/-- The boolean the Python functions actually return. -/
def RoleOpResult.toBool : RoleOpResult → Bool
  | .ok _ => true
  | _ => false

/-- `RBACService.assign_role` (`rbac.py` lines 42-59): look the role up by
name, fail when absent; fail when the user already holds it
(`if role in user.roles`); otherwise `user.roles.append(role)`. -/
def assign_role (db : Db) (user : User) (role_name : String) : RoleOpResult :=
  match db.roles.find? (fun r => r.name == role_name) with
  | none => .roleNotFound
  | some role =>
    if role ∈ user.roles then .alreadyAssigned
    else .ok { user with roles := user.roles ++ [role] }

/-- `RBACService.remove_role` (`rbac.py` lines 61-78): look the role up by
name, fail when absent; fail when the user does not hold it
(`if role not in user.roles`); otherwise `user.roles.remove(role)` (removal
of the first matching element). -/
def remove_role (db : Db) (user : User) (role_name : String) : RoleOpResult :=
  match db.roles.find? (fun r => r.name == role_name) with
  | none => .roleNotFound
  | some role =>
    if role ∉ user.roles then .notAssigned
    else .ok { user with roles := user.roles.erase role }

/-- `RBACService.get_user_permissions` (`rbac.py` lines 80-86): empty set
when the user is `None` or inactive, otherwise `user.get_permissions()`. -/
def get_user_permissions (user : Option User) : List String :=
  match user with
  | none => []
  | some u => if !u.is_active then [] else u.get_permissions

end RBACService

/-- `PERMISSIONS` (`seed_roles_and_permissions.py` lines 52-87): every
permission the seed script creates, as (module, [(name, description)]). -/
def PERMISSIONS : List (String × List (String × String)) :=
  [("users",
    [("users:list", "List all users"),
     ("users:create", "Create new user"),
     ("users:read", "View user details"),
     ("users:update", "Update user"),
     ("users:delete", "Delete user"),
     ("users:manage_roles", "Assign roles to users"),
     ("users:view_activity", "View user activity logs")]),
   ("posts",
    [("posts:create", "Create blog post"),
     ("posts:read", "Read blog posts"),
     ("posts:update", "Update blog post"),
     ("posts:delete", "Delete blog post"),
     ("posts:publish", "Publish blog post"),
     ("posts:schedule", "Schedule blog post"),
     ("posts:bulk_update", "Bulk update posts")]),
   ("comments",
    [("comments:create", "Create comment"),
     ("comments:read", "Read comments"),
     ("comments:update", "Update own comment"),
     ("comments:delete", "Delete comment"),
     ("comments:moderate", "Moderate comments"),
     ("comments:approve", "Approve comments")]),
   ("analytics",
    [("analytics:view", "View analytics"),
     ("analytics:export", "Export analytics")]),
   ("settings",
    [("settings:manage", "Manage system settings"),
     ("settings:manage_roles", "Manage roles and permissions")])]

/-- The `permissions` table after the seed script's first loop: one
`Permission` row per entry of `PERMISSIONS`, tagged with its module. -/
def seededPermissions : List Permission :=
  PERMISSIONS.flatMap (fun m =>
    m.2.map (fun p => { name := p.1, description := p.2, module := m.1 }))

/-- `ROLE_PERMISSIONS` (`seed_roles_and_permissions.py` lines 91-131): the
shipped role-name to permission-name grant table. -/
def ROLE_PERMISSIONS : List (String × List String) :=
  [("super_admin",
    ["users:list", "users:create", "users:read", "users:update", "users:delete",
     "users:manage_roles", "users:view_activity",
     "posts:create", "posts:read", "posts:update", "posts:delete", "posts:publish",
     "posts:schedule", "posts:bulk_update",
     "comments:create", "comments:read", "comments:update", "comments:delete",
     "comments:moderate", "comments:approve",
     "analytics:view", "analytics:export",
     "settings:manage", "settings:manage_roles"]),
   ("admin",
    ["users:list", "users:create", "users:read", "users:update", "users:delete",
     "users:manage_roles", "users:view_activity",
     "posts:create", "posts:read", "posts:update", "posts:delete", "posts:publish",
     "posts:schedule", "posts:bulk_update",
     "comments:create", "comments:read", "comments:update", "comments:delete",
     "comments:moderate", "comments:approve",
     "analytics:view", "analytics:export",
     "settings:manage_roles"]),
   ("editor",
    ["posts:create", "posts:read", "posts:update", "posts:delete", "posts:publish",
     "posts:schedule", "posts:bulk_update",
     "comments:read", "comments:moderate", "comments:approve",
     "users:read"]),
   ("author",
    ["posts:create", "posts:read", "posts:update",
     "comments:create", "comments:read"]),
   ("user",
    ["posts:read",
     "comments:create", "comments:read"])]

/-- The permission rows attached to one role by the seed script's second
loop (`seed_roles_and_permissions.py` lines 176-183): for each granted name,
look the row up in the permissions table and append it unless already
present (`if perm and perm not in role.permissions`). -/
def seedRolePermissionRows (names : List String) : List Permission :=
  names.foldl
    (fun acc pn =>
      match seededPermissions.find? (fun p => p.name == pn) with
      | none => acc
      | some p => if p ∈ acc then acc else acc ++ [p]) []

/-- The seeded `author` system role (`seed_roles_and_permissions.py` lines
36-41 with its `ROLE_PERMISSIONS` grants). -/
def authorRole : Role :=
  { name := "author"
    description := "Author who can create and edit own content"
    level := 10
    is_system := true
    permissions :=
      seedRolePermissionRows
        (((ROLE_PERMISSIONS.find? (fun rp => rp.1 == "author")).map (fun rp => rp.2)).getD []) }

namespace Routes

/-- Request body of `POST /api/auth/register`
(`api/routes/auth.py` lines 24-41). -/
structure RegisterRequest where
  email : String
  username : String
  password : String
  first_name : Option String
  last_name : Option String
deriving DecidableEq

/-- The `register` route (`api/routes/auth.py` lines 91-133): collision
check on email OR username, then the 8-character password rule, then
`AuthService.create_user`. -/
def register (db : Db) (req : RegisterRequest) : Except HTTPError (User × Db) :=
  match db.users.find? (fun u => u.email == req.email || u.username == req.username) with
  | some _ => .error .conflict409
  | none =>
    if req.password.length < 8 then .error .badRequest400
    else .ok (AuthService.create_user db req.email req.username req.password
                req.first_name req.last_name)

/-- Response body of the token-issuing routes
(`api/routes/auth.py` lines 58-63). -/
structure TokenResponse where
  access_token : Token
  refresh_token : Token
  token_type : String
  expires_in : Int
deriving DecidableEq

/-- The `refresh_token` route (`api/routes/auth.py` lines 178-213): verify
the refresh token — the guard `if not user_id` is Python truthiness, so it
also fires on the verified subject id `0`; 404 when no user row has that id;
then mint a new access token with the configured TTL and echo the same
refresh token back. Neither `is_active` nor `deleted_at` is ever read. -/
def refresh_token (s : Settings) (db : Db) (now : Int) (rt : Token) :
    Except HTTPError TokenResponse :=
  match AuthService.verify_refresh_token s now rt with
  | none => .error .unauthorized401
  | some user_id =>
    if user_id == 0 then .error .unauthorized401
    else
      match db.users.find? (fun u => u.id == user_id) with
      | none => .error .notFound404
      | some user =>
        .ok { access_token :=
                AuthService.create_access_token s now user.id (some s.JWT_EXPIRATION_HOURS)
              refresh_token := rt
              token_type := "bearer"
              expires_in := s.JWT_EXPIRATION_HOURS * 3600 }

end Routes

/-! ### Helper lemmas -/

/-- `find?` skips a prefix in which nothing matches. -/
theorem find?_append_of_none {α : Type} (p : α → Bool) (l₁ l₂ : List α)
    (h : l₁.find? p = none) : (l₁ ++ l₂).find? p = l₂.find? p := by
  induction l₁ with
  | nil => rfl
  | cons a t ih =>
    rw [List.find?_cons] at h
    rw [List.cons_append, List.find?_cons]
    cases hpa : p a with
    | true => rw [hpa] at h; exact absurd h (by simp)
    | false => rw [hpa] at h; exact ih h

/-- Membership after a Python `set.add`. -/
theorem mem_pySetAdd (s : List String) (x a : String) :
    a ∈ pySetAdd s x ↔ a ∈ s ∨ a = x := by
  unfold pySetAdd
  by_cases hx : x ∈ s
  · rw [if_pos hx]
    constructor
    · exact fun h => Or.inl h
    · rintro (h | rfl)
      · exact h
      · exact hx
  · rw [if_neg hx]
    simp

/-- Membership in the inner fold of `User.get_permissions`. -/
theorem mem_foldl_pySetAdd (perms : List Permission) (acc : List String) (a : String) :
    a ∈ perms.foldl (fun acc2 p => pySetAdd acc2 p.name) acc ↔
      a ∈ acc ∨ ∃ p ∈ perms, p.name = a := by
  induction perms generalizing acc with
  | nil => simp
  | cons q t ih =>
    rw [List.foldl_cons, ih, mem_pySetAdd]
    constructor
    · rintro ((h | rfl) | ⟨p, hp, rfl⟩)
      · exact Or.inl h
      · exact Or.inr ⟨q, List.mem_cons_self q t, rfl⟩
      · exact Or.inr ⟨p, List.mem_cons_of_mem q hp, rfl⟩
    · rintro (h | ⟨p, hp, rfl⟩)
      · exact Or.inl (Or.inl h)
      · rcases List.mem_cons.mp hp with rfl | hpt
        · exact Or.inl (Or.inr rfl)
        · exact Or.inr ⟨p, hpt, rfl⟩

/-- Membership in the double fold of `User.get_permissions`. -/
theorem mem_foldl_roles (rs : List Role) (acc : List String) (a : String) :
    a ∈ rs.foldl
        (fun acc role => role.permissions.foldl (fun acc2 p => pySetAdd acc2 p.name) acc)
        acc ↔
      a ∈ acc ∨ ∃ r ∈ rs, ∃ p ∈ r.permissions, p.name = a := by
  induction rs generalizing acc with
  | nil => simp
  | cons r t ih =>
    rw [List.foldl_cons, ih, mem_foldl_pySetAdd]
    constructor
    · rintro ((h | hp) | ⟨r2, hr2, hp2⟩)
      · exact Or.inl h
      · exact Or.inr ⟨r, List.mem_cons_self r t, hp⟩
      · exact Or.inr ⟨r2, List.mem_cons_of_mem r hr2, hp2⟩
    · rintro (h | ⟨r2, hr2, hp2⟩)
      · exact Or.inl (Or.inl h)
      · rcases List.mem_cons.mp hr2 with rfl | hrt
        · exact Or.inl (Or.inr hp2)
        · exact Or.inr ⟨r2, hrt, hp2⟩

/-- `User.get_permissions` computes exactly the union over the user's roles
of the role's permission names. -/
theorem mem_get_permissions (u : User) (a : String) :
    a ∈ u.get_permissions ↔ ∃ r ∈ u.roles, ∃ p ∈ r.permissions, p.name = a := by
  unfold User.get_permissions
  rw [mem_foldl_roles]
  simp

/-! ### C1 -/

/-- C1: for every user id, secret and TTL, verifying an access token
issued now succeeds with the same user id at any instant strictly before
expiry; once the TTL has elapsed (`exp <= now`, signature still valid)
verification fails in the expired branch; a well-signed unexpired refresh
token passed to access verification fails in the wrong-token-type branch,
and symmetrically an access token passed to refresh verification. -/
theorem token_type_discrimination_roundtrip
    (s : Settings) (now elapsed u hours days : Int) :
    (elapsed < hours * 3600 →
      AuthService.verify_access_token s (now + elapsed)
        (AuthService.create_access_token s now u (some hours)) = some u)
    ∧ (hours * 3600 ≤ elapsed →
      AuthService.verifyAccessTokenE s (now + elapsed)
        (AuthService.create_access_token s now u (some hours)) =
        .error .expiredToken)
    ∧ (elapsed < days * 86400 →
      AuthService.verifyAccessTokenE s (now + elapsed)
        (AuthService.create_refresh_token s now u (some days)) =
        .error .wrongTokenType)
    ∧ (elapsed < hours * 3600 →
      AuthService.verifyRefreshTokenE s (now + elapsed)
        (AuthService.create_access_token s now u (some hours)) =
        .error .wrongTokenType) := by
  refine ⟨fun h => ?_, fun h => ?_, fun h => ?_, fun h => ?_⟩
  · have hne : ¬ (now + hours * 3600 ≤ now + elapsed) := by omega
    simp [AuthService.verify_access_token, AuthService.verifyAccessTokenE,
      AuthService.create_access_token, jwtDecode, hne, Except.toOption]
  · have hle : now + hours * 3600 ≤ now + elapsed := by omega
    simp [AuthService.verifyAccessTokenE,
      AuthService.create_access_token, jwtDecode, hle]
  · have hne : ¬ (now + days * 86400 ≤ now + elapsed) := by omega
    simp [AuthService.verifyAccessTokenE,
      AuthService.create_refresh_token, jwtDecode, hne]
  · have hne : ¬ (now + hours * 3600 ≤ now + elapsed) := by omega
    simp [AuthService.verifyRefreshTokenE,
      AuthService.create_access_token, jwtDecode, hne]

/-- C1 witness: concrete instantiation at user id 7, the default settings,
a 24-hour access TTL and a 7-day refresh TTL, checked 10 seconds after
issuance and at the exact expiry instant. -/
theorem token_type_discrimination_roundtrip_witness :
    ((10 : Int) < 24 * 3600 ∧
      AuthService.verify_access_token defaultSettings (0 + 10)
        (AuthService.create_access_token defaultSettings 0 7 (some 24)) = some 7)
    ∧ ((24 : Int) * 3600 ≤ 86400 ∧
      AuthService.verifyAccessTokenE defaultSettings (0 + 86400)
        (AuthService.create_access_token defaultSettings 0 7 (some 24)) =
        .error .expiredToken)
    ∧ ((10 : Int) < 7 * 86400 ∧
      AuthService.verifyAccessTokenE defaultSettings (0 + 10)
        (AuthService.create_refresh_token defaultSettings 0 7 (some 7)) =
        .error .wrongTokenType)
    ∧ ((10 : Int) < 24 * 3600 ∧
      AuthService.verifyRefreshTokenE defaultSettings (0 + 10)
        (AuthService.create_access_token defaultSettings 0 7 (some 24)) =
        .error .wrongTokenType) :=
  ⟨⟨by decide,
    (token_type_discrimination_roundtrip defaultSettings 0 10 7 24 7).1 (by decide)⟩,
   ⟨by decide,
    (token_type_discrimination_roundtrip defaultSettings 0 86400 7 24 7).2.1 (by decide)⟩,
   ⟨by decide,
    (token_type_discrimination_roundtrip defaultSettings 0 10 7 24 7).2.2.1 (by decide)⟩,
   ⟨by decide,
    (token_type_discrimination_roundtrip defaultSettings 0 10 7 24 7).2.2.2 (by decide)⟩⟩

/-! ### C2 -/

/-- A soft-deleted user row: `deleted_at` is set, `is_active` is still
true, and the stored hash matches the password `password123`. -/
def deletedUser : User :=
  { id := 1, email := "alice@x.com", username := "alice"
    password_hash := AuthService.hash_password "password123"
    first_name := none, last_name := none
    is_active := true, is_email_verified := false
    last_login := none, deleted_at := some 100, roles := [] }

/-- A store containing only the soft-deleted user. -/
def deletedUserDb : Db := { users := [deletedUser], roles := [], next_id := 2 }

/-- C2 evaluation at the failing input: the user is soft-deleted
(`deleted_at` set), yet `authenticate_user` with the correct password
succeeds and returns the user, and `get_current_user` with a valid access
token returns the user instead of failing with `NotFound` — neither path
ever reads `deleted_at`, contradicting the spec's soft-delete invariant. -/
theorem soft_deleted_user_authenticates :
    deletedUser.deleted_at = some 100
    ∧ deletedUser.is_active = true
    ∧ (AuthService.authenticate_user deletedUserDb 200 "alice@x.com" "password123").1
        = some { deletedUser with last_login := some 200 }
    ∧ AuthService.get_current_user defaultSettings deletedUserDb 10
        (AuthService.create_access_token defaultSettings 0 1 (some 24))
        = .ok deletedUser := by
  decide

/-! ### C3 -/

/-- C3: `authenticate_user` returns the single opaque failure value `none`
in all three failure cases — no user row with the email, password mismatch
against the stored hash, and `is_active = false` — so the returned error
value is identical across the three causes. -/
theorem authenticate_failures_collapse_to_none
    (db : Db) (now : Int) (email password : String) :
    (db.users.find? (fun u => u.email == email) = none →
      (AuthService.authenticate_user db now email password).1 = none)
    ∧ (∀ user, db.users.find? (fun u => u.email == email) = some user →
        AuthService.verify_password password user.password_hash = false →
        (AuthService.authenticate_user db now email password).1 = none)
    ∧ (∀ user, db.users.find? (fun u => u.email == email) = some user →
        AuthService.verify_password password user.password_hash = true →
        user.is_active = false →
        (AuthService.authenticate_user db now email password).1 = none) := by
  refine ⟨fun h => ?_, fun user hf hv => ?_, fun user hf hv ha => ?_⟩
  · simp [AuthService.authenticate_user, h]
  · simp [AuthService.authenticate_user, hf, hv]
  · simp [AuthService.authenticate_user, hf, hv, ha]

/-- A store with one registered, active user for the C3 witness. -/
def bobUser : User :=
  { id := 1, email := "bob@x.com", username := "bob"
    password_hash := AuthService.hash_password "rightpass99"
    first_name := none, last_name := none
    is_active := true, is_email_verified := false
    last_login := none, deleted_at := none, roles := [] }

/-- The store holding only `bobUser`. -/
def bobDb : Db := { users := [bobUser], roles := [], next_id := 2 }

/-- C3 witness: the wrong-password case at a concrete store, and the
absent-email case; both produce the identical value `none`. -/
theorem authenticate_failures_collapse_to_none_witness :
    (bobDb.users.find? (fun u => u.email == "bob@x.com") = some bobUser
      ∧ AuthService.verify_password "wrongpass" bobUser.password_hash = false
      ∧ (AuthService.authenticate_user bobDb 50 "bob@x.com" "wrongpass").1 = none)
    ∧ (bobDb.users.find? (fun u => u.email == "nobody@x.com") = none
      ∧ (AuthService.authenticate_user bobDb 50 "nobody@x.com" "wrongpass").1 = none) :=
  ⟨⟨by decide, by decide,
    (authenticate_failures_collapse_to_none bobDb 50 "bob@x.com" "wrongpass").2.1
      bobUser (by decide) (by decide)⟩,
   ⟨by decide,
    (authenticate_failures_collapse_to_none bobDb 50 "nobody@x.com" "wrongpass").1
      (by decide)⟩⟩

/-! ### C4 -/

/-- C4: for every request with password length at least 8 and no existing
user with the same email or username, `register` succeeds, the created user
has `is_active = true` and `is_email_verified = false`, and authenticating
against the resulting store with the same email and password succeeds and
returns that user (with its fresh `last_login`). -/
theorem register_then_authenticate_succeeds
    (db : Db) (now : Int) (req : Routes.RegisterRequest)
    (hlen : 8 ≤ req.password.length)
    (hfree : db.users.find?
        (fun u => u.email == req.email || u.username == req.username) = none) :
    ∃ user db2,
      Routes.register db req = .ok (user, db2)
      ∧ user.is_active = true
      ∧ user.is_email_verified = false
      ∧ user.email = req.email
      ∧ user.username = req.username
      ∧ (AuthService.authenticate_user db2 now req.email req.password).1
          = some { user with last_login := some now } := by
  have hlen' : ¬ (req.password.length < 8) := by omega
  refine ⟨(AuthService.create_user db req.email req.username req.password
      req.first_name req.last_name).1,
    (AuthService.create_user db req.email req.username req.password
      req.first_name req.last_name).2, ?_, rfl, rfl, rfl, rfl, ?_⟩
  · simp [Routes.register, hfree, hlen']
  · have hnoemail : db.users.find? (fun u => u.email == req.email) = none := by
      rw [List.find?_eq_none] at hfree ⊢
      intro u hu
      have h2 := hfree u hu
      simp only [Bool.or_eq_true, not_or] at h2
      exact h2.1
    simp [AuthService.authenticate_user, AuthService.create_user,
      AuthService.verify_password, hnoemail]

/-- An empty store for the C4 witness. -/
def emptyDb : Db := { users := [], roles := [], next_id := 1 }

/-- A concrete registration request for the C4 witness. -/
def aliceReq : Routes.RegisterRequest :=
  { email := "alice@x.com", username := "alice", password := "password123"
    first_name := none, last_name := none }

/-- C4 witness: registering `alice` in the empty store then authenticating
with the same credentials. -/
theorem register_then_authenticate_succeeds_witness :
    8 ≤ aliceReq.password.length
    ∧ emptyDb.users.find?
        (fun u => u.email == aliceReq.email || u.username == aliceReq.username) = none
    ∧ ∃ user db2,
        Routes.register emptyDb aliceReq = .ok (user, db2)
        ∧ user.is_active = true
        ∧ user.is_email_verified = false
        ∧ user.email = aliceReq.email
        ∧ user.username = aliceReq.username
        ∧ (AuthService.authenticate_user db2 300 aliceReq.email aliceReq.password).1
            = some { user with last_login := some 300 } :=
  ⟨by decide, by decide,
   register_then_authenticate_succeeds emptyDb 300 aliceReq (by decide) (by decide)⟩

/-! ### C5 -/

/-- C5: for every active user whose only role is the seeded `author` role,
`get_user_permissions` returns exactly the five-element set
posts:create, posts:read, posts:update, comments:create, comments:read —
no more and no fewer (the computed list is duplicate-free and equals the
grant table's author row element for element). -/
theorem author_role_permission_set_exact (u : User)
    (hactive : u.is_active = true) (hroles : u.roles = [authorRole]) :
    RBACService.get_user_permissions (some u) =
      ["posts:create", "posts:read", "posts:update",
       "comments:create", "comments:read"] := by
  have h3 : u.get_permissions =
      ["posts:create", "posts:read", "posts:update",
       "comments:create", "comments:read"] := by
    unfold User.get_permissions
    rw [hroles]
    decide
  simp [RBACService.get_user_permissions, hactive, h3]

/-- A concrete active user holding only the seeded author role. -/
def authorUser : User :=
  { id := 5, email := "carol@x.com", username := "carol"
    password_hash := "", first_name := none, last_name := none
    is_active := true, is_email_verified := false
    last_login := none, deleted_at := none, roles := [authorRole] }

/-- C5 witness: the exact permission set at the concrete author user. -/
theorem author_role_permission_set_exact_witness :
    authorUser.is_active = true
    ∧ authorUser.roles = [authorRole]
    ∧ RBACService.get_user_permissions (some authorUser) =
        ["posts:create", "posts:read", "posts:update",
         "comments:create", "comments:read"] :=
  ⟨by decide, by decide,
   author_role_permission_set_exact authorUser (by decide) (by decide)⟩

/-! ### C6 -/

/-- C6: `get_user_permissions` computes the union over all of the user's
roles of the role's permission-name set; for a null user or an inactive
user it returns the empty set (fails closed, no error), and consequently
`check_permission` is false for every permission name in those cases. -/
theorem permissions_union_and_fail_closed :
    (∀ (u : User), u.is_active = true → ∀ (a : String),
      a ∈ RBACService.get_user_permissions (some u) ↔
        ∃ r ∈ u.roles, ∃ p ∈ r.permissions, p.name = a)
    ∧ RBACService.get_user_permissions none = []
    ∧ (∀ (u : User), u.is_active = false →
        RBACService.get_user_permissions (some u) = [])
    ∧ (∀ (a : String), RBACService.check_permission none a = false)
    ∧ (∀ (u : User) (a : String), u.is_active = false →
        RBACService.check_permission (some u) a = false) := by
  refine ⟨fun u hu a => ?_, rfl, fun u hu => ?_, fun a => rfl, fun u a hu => ?_⟩
  · rw [show RBACService.get_user_permissions (some u) = u.get_permissions by
      simp [RBACService.get_user_permissions, hu]]
    exact mem_get_permissions u a
  · simp [RBACService.get_user_permissions, hu]
  · simp [RBACService.check_permission, hu]

/-- An inactive user holding the seeded author role, for the C6 witness. -/
def inactiveUser : User :=
  { id := 6, email := "dan@x.com", username := "dan"
    password_hash := "", first_name := none, last_name := none
    is_active := false, is_email_verified := false
    last_login := none, deleted_at := none, roles := [authorRole] }

/-- C6 witness: the union characterisation instantiated at the concrete
author user and permission name `posts:read`, plus the fails-closed cases
at `none` and at a concrete inactive user. -/
theorem permissions_union_and_fail_closed_witness :
    ("posts:read" ∈ RBACService.get_user_permissions (some authorUser) ↔
      ∃ r ∈ authorUser.roles, ∃ p ∈ r.permissions, p.name = "posts:read")
    ∧ RBACService.get_user_permissions none = []
    ∧ (inactiveUser.is_active = false
       ∧ RBACService.get_user_permissions (some inactiveUser) = []
       ∧ RBACService.check_permission (some inactiveUser) "posts:read" = false)
    ∧ RBACService.check_permission none "posts:read" = false :=
  ⟨permissions_union_and_fail_closed.1 authorUser (by decide) "posts:read",
   permissions_union_and_fail_closed.2.1,
   ⟨by decide,
    permissions_union_and_fail_closed.2.2.1 inactiveUser (by decide),
    permissions_union_and_fail_closed.2.2.2.2 inactiveUser "posts:read" (by decide)⟩,
   permissions_union_and_fail_closed.2.2.2.1 "posts:read"⟩

/-! ### C7 -/

/-- C7: `assign_role` fails in the role-not-found branch when no role of
the name exists, fails in the already-assigned branch (not silent success)
when the user already holds the role, and otherwise succeeds adding exactly
that membership edge; `remove_role` fails in the role-not-found branch when
the role does not exist, fails in the not-assigned branch when the user
does not hold it, and otherwise succeeds removing exactly that edge. -/
theorem assign_remove_role_outcomes (db : Db) (user : User) (role_name : String) :
    (db.roles.find? (fun r => r.name == role_name) = none →
      RBACService.assign_role db user role_name = .roleNotFound
      ∧ RBACService.remove_role db user role_name = .roleNotFound)
    ∧ (∀ role, db.roles.find? (fun r => r.name == role_name) = some role →
        role ∈ user.roles →
        RBACService.assign_role db user role_name = .alreadyAssigned)
    ∧ (∀ role, db.roles.find? (fun r => r.name == role_name) = some role →
        role ∉ user.roles →
        RBACService.assign_role db user role_name =
          .ok { user with roles := user.roles ++ [role] })
    ∧ (∀ role, db.roles.find? (fun r => r.name == role_name) = some role →
        role ∉ user.roles →
        RBACService.remove_role db user role_name = .notAssigned)
    ∧ (∀ role, db.roles.find? (fun r => r.name == role_name) = some role →
        role ∈ user.roles →
        RBACService.remove_role db user role_name =
          .ok { user with roles := user.roles.erase role }) := by
  refine ⟨fun h => ⟨?_, ?_⟩, fun role hf hm => ?_, fun role hf hm => ?_,
    fun role hf hm => ?_, fun role hf hm => ?_⟩
  · simp [RBACService.assign_role, h]
  · simp [RBACService.remove_role, h]
  · simp [RBACService.assign_role, hf, hm]
  · simp [RBACService.assign_role, hf, hm]
  · simp [RBACService.remove_role, hf, hm]
  · simp [RBACService.remove_role, hf, hm]

/-- A store whose `roles` table holds only the seeded author role, for the
C7 witness. -/
def rolesDb : Db := { users := [], roles := [authorRole], next_id := 1 }

/-- C7 witness: at the concrete store, assigning `author` to a user who
already holds it fails in the already-assigned branch; assigning it to a
user who does not succeeds with exactly that edge added; removing it from a
user who does not hold it fails in the not-assigned branch; and both
operations fail in the role-not-found branch for the name `editor`, which
the store does not contain. -/
theorem assign_remove_role_outcomes_witness :
    (rolesDb.roles.find? (fun r => r.name == "author") = some authorRole
     ∧ authorRole ∈ authorUser.roles
     ∧ RBACService.assign_role rolesDb authorUser "author" = .alreadyAssigned
     ∧ RBACService.remove_role rolesDb authorUser "author" =
        .ok { authorUser with roles := authorUser.roles.erase authorRole })
    ∧ (authorRole ∉ bobUser.roles
     ∧ RBACService.assign_role rolesDb bobUser "author" =
        .ok { bobUser with roles := bobUser.roles ++ [authorRole] }
     ∧ RBACService.remove_role rolesDb bobUser "author" = .notAssigned)
    ∧ (rolesDb.roles.find? (fun r => r.name == "editor") = none
     ∧ RBACService.assign_role rolesDb bobUser "editor" = .roleNotFound
     ∧ RBACService.remove_role rolesDb bobUser "editor" = .roleNotFound) :=
  ⟨⟨by decide, by decide,
    (assign_remove_role_outcomes rolesDb authorUser "author").2.1
      authorRole (by decide) (by decide),
    (assign_remove_role_outcomes rolesDb authorUser "author").2.2.2.2
      authorRole (by decide) (by decide)⟩,
   ⟨by decide,
    (assign_remove_role_outcomes rolesDb bobUser "author").2.2.1
      authorRole (by decide) (by decide),
    (assign_remove_role_outcomes rolesDb bobUser "author").2.2.2.1
      authorRole (by decide) (by decide)⟩,
   ⟨by decide,
    ((assign_remove_role_outcomes rolesDb bobUser "editor").1 (by decide)).1,
    ((assign_remove_role_outcomes rolesDb bobUser "editor").1 (by decide)).2⟩⟩

/-! ### C8 -/

/-- C8 evaluation at the failing input: `Settings` construction performs no
validation, so a 5-character JWT secret is accepted at configuration time
and access tokens are then issued signed with it; the only relation to the
32-byte minimum is that the shipped default secret happens to be 49
characters long. -/
theorem short_jwt_secret_accepted :
    "short".length < 32
    ∧ (mkSettings "short").JWT_SECRET_KEY = "short"
    ∧ (AuthService.create_access_token (mkSettings "short") 0 1 (some 24)).signedWith
        = "short"
    ∧ AuthService.verify_access_token (mkSettings "short") 10
        (AuthService.create_access_token (mkSettings "short") 0 1 (some 24)) = some 1
    ∧ defaultSettings.JWT_SECRET_KEY.length = 49 := by
  decide

/-! ### C9 -/

/-- C9: for subject id 0, a correctly signed, unexpired access token
verifies at the codec level to `some 0`, yet `get_current_user` rejects it
with 401 for every store — even one containing an active user row with
id 0 — because the Python truthiness guard `if not user_id` treats the
integer 0 exactly like a verification failure. -/
theorem subject_zero_token_rejected_unauthorized
    (s : Settings) (db : Db) (now elapsed hours : Int)
    (h : elapsed < hours * 3600) :
    AuthService.verify_access_token s (now + elapsed)
      (AuthService.create_access_token s now 0 (some hours)) = some 0
    ∧ AuthService.get_current_user s db (now + elapsed)
        (AuthService.create_access_token s now 0 (some hours))
      = .error .unauthorized401 := by
  have hne : ¬ (now + hours * 3600 ≤ now + elapsed) := by omega
  have hv : AuthService.verify_access_token s (now + elapsed)
      (AuthService.create_access_token s now 0 (some hours)) = some 0 := by
    simp [AuthService.verify_access_token, AuthService.verifyAccessTokenE,
      AuthService.create_access_token, jwtDecode, hne, Except.toOption]
  refine ⟨hv, ?_⟩
  simp [AuthService.get_current_user, hv]

/-- An active user row with id 0. -/
def subjectZeroUser : User :=
  { id := 0, email := "zed@x.com", username := "zed"
    password_hash := "", first_name := none, last_name := none
    is_active := true, is_email_verified := false
    last_login := none, deleted_at := none, roles := [] }

/-- A store containing the id-0 user. -/
def subjectZeroDb : Db := { users := [subjectZeroUser], roles := [], next_id := 1 }

/-- C9 witness: at the default settings and a store that does contain an
active user with id 0, a valid token for subject 0 verifies to `some 0` at
the codec yet `get_current_user` answers 401. -/
theorem subject_zero_token_rejected_unauthorized_witness :
    (10 : Int) < 24 * 3600
    ∧ subjectZeroDb.users.find? (fun u => u.id == 0) = some subjectZeroUser
    ∧ (AuthService.verify_access_token defaultSettings (0 + 10)
        (AuthService.create_access_token defaultSettings 0 0 (some 24)) = some 0
      ∧ AuthService.get_current_user defaultSettings subjectZeroDb (0 + 10)
          (AuthService.create_access_token defaultSettings 0 0 (some 24))
        = .error .unauthorized401) :=
  ⟨by decide, by decide,
   subject_zero_token_rejected_unauthorized defaultSettings subjectZeroDb 0 10 24
     (by decide)⟩

/-! ### C10 -/

/-- C10 counterexample: the claim fails as stated at subject id 0. The
store contains an existing (and active) user row with id 0; its refresh
token is well-signed and unexpired (the codec branch embedding returns
`.ok 0`); yet the refresh route answers 401 — so refresh does not succeed
for every existing user holding a valid refresh token, and 401 is not
raised only for invalid or expired tokens. -/
theorem refresh_subject_zero_counterexample :
    subjectZeroDb.users.find? (fun u => u.id == 0) = some subjectZeroUser
    ∧ subjectZeroUser.is_active = true
    ∧ AuthService.verifyRefreshTokenE defaultSettings 10
        (AuthService.create_refresh_token defaultSettings 0 0 (some 7)) = .ok 0
    ∧ Routes.refresh_token defaultSettings subjectZeroDb 10
        (AuthService.create_refresh_token defaultSettings 0 0 (some 7))
      = .error .unauthorized401 := by
  decide

/-- C10 as amended: for every existing user row whose id is nonzero, a
well-signed unexpired refresh token makes the refresh route succeed with a
fresh access token — the user's `is_active` flag is never consulted, so the
result is the same whatever its value; 404 arises exactly when no user row
with the token's subject id exists; and an expired refresh token yields
401. -/
theorem refresh_route_ignores_is_active
    (s : Settings) (db : Db) (now elapsed days uid : Int) :
    (uid ≠ 0 → elapsed < days * 86400 →
      (∀ user, db.users.find? (fun u => u.id == uid) = some user →
        Routes.refresh_token s db (now + elapsed)
            (AuthService.create_refresh_token s now uid (some days))
          = .ok { access_token := AuthService.create_access_token s (now + elapsed)
                    user.id (some s.JWT_EXPIRATION_HOURS)
                  refresh_token := AuthService.create_refresh_token s now uid (some days)
                  token_type := "bearer"
                  expires_in := s.JWT_EXPIRATION_HOURS * 3600 })
      ∧ (db.users.find? (fun u => u.id == uid) = none →
        Routes.refresh_token s db (now + elapsed)
            (AuthService.create_refresh_token s now uid (some days))
          = .error .notFound404))
    ∧ (days * 86400 ≤ elapsed →
      Routes.refresh_token s db (now + elapsed)
          (AuthService.create_refresh_token s now uid (some days))
        = .error .unauthorized401) := by
  refine ⟨fun hz hlt => ?_, fun hle => ?_⟩
  · have hne : ¬ (now + days * 86400 ≤ now + elapsed) := by omega
    have hv : AuthService.verify_refresh_token s (now + elapsed)
        (AuthService.create_refresh_token s now uid (some days)) = some uid := by
      simp [AuthService.verify_refresh_token, AuthService.verifyRefreshTokenE,
        AuthService.create_refresh_token, jwtDecode, hne, Except.toOption]
    refine ⟨fun user hf => ?_, fun hf => ?_⟩
    · simp [Routes.refresh_token, hv, hz, hf]
    · simp [Routes.refresh_token, hv, hz, hf]
  · have hv : AuthService.verify_refresh_token s (now + elapsed)
        (AuthService.create_refresh_token s now uid (some days)) = none := by
      have hle2 : now + days * 86400 ≤ now + elapsed := by omega
      simp [AuthService.verify_refresh_token, AuthService.verifyRefreshTokenE,
        AuthService.create_refresh_token, jwtDecode, hle2, Except.toOption]
    simp [Routes.refresh_token, hv]

/-- An inactive (soft-disabled) user row with a nonzero id, for the C10
witness. -/
def inactiveNonzeroUser : User :=
  { id := 9, email := "eve@x.com", username := "eve"
    password_hash := "", first_name := none, last_name := none
    is_active := false, is_email_verified := false
    last_login := none, deleted_at := none, roles := [] }

/-- A store containing only the inactive id-9 user. -/
def inactiveNonzeroDb : Db :=
  { users := [inactiveNonzeroUser], roles := [], next_id := 10 }

/-- C10 witness for the amended claim: an inactive user with id 9 still
refreshes successfully (showing `is_active` is never consulted), an absent
id yields 404, and an expired refresh token yields 401. -/
theorem refresh_route_ignores_is_active_witness :
    (inactiveNonzeroUser.is_active = false
     ∧ inactiveNonzeroDb.users.find? (fun u => u.id == 9) = some inactiveNonzeroUser
     ∧ Routes.refresh_token defaultSettings inactiveNonzeroDb (0 + 10)
          (AuthService.create_refresh_token defaultSettings 0 9 (some 7))
        = .ok { access_token := AuthService.create_access_token defaultSettings (0 + 10)
                  inactiveNonzeroUser.id (some defaultSettings.JWT_EXPIRATION_HOURS)
                refresh_token := AuthService.create_refresh_token defaultSettings 0 9 (some 7)
                token_type := "bearer"
                expires_in := defaultSettings.JWT_EXPIRATION_HOURS * 3600 })
    ∧ (inactiveNonzeroDb.users.find? (fun u => u.id == 5) = none
     ∧ Routes.refresh_token defaultSettings inactiveNonzeroDb (0 + 10)
          (AuthService.create_refresh_token defaultSettings 0 5 (some 7))
        = .error .notFound404)
    ∧ Routes.refresh_token defaultSettings inactiveNonzeroDb (0 + 7 * 86400)
          (AuthService.create_refresh_token defaultSettings 0 9 (some 7))
        = .error .unauthorized401 :=
  ⟨⟨by decide, by decide,
    ((refresh_route_ignores_is_active defaultSettings inactiveNonzeroDb 0 10 7 9).1
      (by decide) (by decide)).1 inactiveNonzeroUser (by decide)⟩,
   ⟨by decide,
    ((refresh_route_ignores_is_active defaultSettings inactiveNonzeroDb 0 10 7 5).1
      (by decide) (by decide)).2 (by decide)⟩,
   (refresh_route_ignores_is_active defaultSettings inactiveNonzeroDb 0 (7 * 86400) 7 9).2
     (by decide)⟩
